import Mathlib

/-!
Shallow embedding of the `servicenow.itsm` request modules
(`plugins/modules/request_info.py`, `request_item.py`, `request_item_info.py`,
`request_task_info.py` and `plugins/module_utils/variable.py`,
`request_item.py`).

Modelling conventions:
* A Python `dict` is an insertion-ordered association list (`Dict`); item
  assignment `d[k] = v` overwrites the first occurrence of `k` in place and
  appends fresh keys (`dictSet`), exactly as CPython does.
* Machine-independent values only: table records are string-valued dicts;
  module results additionally hold list-valued keys (`Val`).
* Collaborators imported from `module_utils` that are not part of these
  sources (table/attachment clients, the field mapper, query parsing,
  `utils.filter_dict`, `utils.is_superset`, ...) are abstracted as opaque
  function parameters bundled in environment structures; theorems quantify
  over them.
* Exceptions are explicit: `Except PyErr`, where `PyErr.snow` is
  `errors.ServiceNowError` (the only class caught by the modules) and
  `PyErr.typeErr` stands for any other Python exception such as `TypeError`.
* Table writes are logged in an explicit effect trace (`Effect`); reads are
  not logged.
-/

/-- A Python `dict` with string keys: an insertion-ordered association list
whose keys are kept distinct by `dictSet`. -/
abbrev Dict (V : Type) := List (String × V)

/-- Python `d[k]` lookup: the value at the first occurrence of key `k`. -/
def dictGet? {V : Type} : Dict V → String → Option V
  | [], _ => none
  | (k', v) :: d, k => if k' = k then some v else dictGet? d k

/-- Python `d[k] = v`: overwrite the first occurrence of `k` in place,
append if the key is fresh. -/
def dictSet {V : Type} : Dict V → String → V → Dict V
  | [], k, v => [(k, v)]
  | (k', v') :: d, k, v =>
      if k' = k then (k, v) :: d else (k', v') :: dictSet d k v

theorem dictGet?_dictSet_self {V : Type} (d : Dict V) (k : String) (v : V) :
    dictGet? (dictSet d k v) k = some v := by
  induction d with
  | nil => simp [dictSet, dictGet?]
  | cons p d ih =>
      obtain ⟨pk, pv⟩ := p
      by_cases h : pk = k
      · simp [dictSet, h, dictGet?]
      · simp [dictSet, h, dictGet?, ih]

theorem dictGet?_dictSet_ne {V : Type} (d : Dict V) (k j : String) (v : V)
    (h : j ≠ k) : dictGet? (dictSet d k v) j = dictGet? d j := by
  have hk : ¬k = j := fun hh => h hh.symm
  induction d with
  | nil => simp [dictSet, dictGet?, hk]
  | cons p d ih =>
      obtain ⟨pk, pv⟩ := p
      by_cases hp : pk = k
      · simp [dictSet, dictGet?, hp, hk]
      · simp [dictSet, dictGet?, hp, ih]

/-- Setting a fresh key appends it at the end (insertion order). -/
theorem dictSet_fresh {V : Type} (d : Dict V) (k : String) (v : V)
    (h : k ∉ d.map Prod.fst) : dictSet d k v = d ++ [(k, v)] := by
  induction d with
  | nil => rfl
  | cons p d ih =>
      obtain ⟨pk, pv⟩ := p
      simp only [List.map_cons, List.mem_cons] at h
      push_neg at h
      have h1 : ¬pk = k := fun hh => h.1 hh.symm
      simp [dictSet, h1, ih h.2]

/-- Folding `d[k] = v` over entries with pairwise-fresh keys appends them. -/
theorem foldl_dictSet_fresh {V : Type} (entries : List (String × V)) :
    ∀ acc : Dict V,
      (acc.map Prod.fst ++ entries.map Prod.fst).Nodup →
      entries.foldl (fun q kv => dictSet q kv.1 kv.2) acc = acc ++ entries := by
  induction entries with
  | nil => intro acc _; simp
  | cons e es ih =>
      intro acc h
      have hmem : e.1 ∉ acc.map Prod.fst := by
        intro hmem
        rcases List.nodup_append.1 h with ⟨_, _, hdisj⟩
        exact hdisj hmem (by simp)
      have hset : dictSet acc e.1 e.2 = acc ++ [e] := dictSet_fresh acc e.1 e.2 hmem
      have hrest : ((acc ++ [e]).map Prod.fst ++ es.map Prod.fst).Nodup := by
        simpa [List.append_assoc] using h
      calc (e :: es).foldl (fun q kv => dictSet q kv.1 kv.2) acc
          = es.foldl (fun q kv => dictSet q kv.1 kv.2) (acc ++ [e]) := by
            rw [List.foldl_cons, hset]
        _ = (acc ++ [e]) ++ es := ih (acc ++ [e]) hrest
        _ = acc ++ (e :: es) := by simp

/-- Python `int(s)` applied to the digits of a string body. -/
def digitsVal? : List Char → Option Nat
  | [] => none
  | l =>
      if l.all (fun c => c.isDigit) then
        some (l.foldl (fun n c => n * 10 + (c.toNat - 48)) 0)
      else none

/-- Python `int(s)` on a string: optional surrounding spaces, an optional
sign, then one or more decimal digits; `none` models the `ValueError`
raised on anything else. -/
def pyInt? (s : String) : Option Int :=
  let t := ((s.toList.dropWhile (fun c => c = ' ')).reverse.dropWhile
    (fun c => c = ' ')).reverse
  match t with
  | '-' :: rest => (digitsVal? rest).map (fun n => -(n : Int))
  | '+' :: rest => (digitsVal? rest).map (fun n => (n : Int))
  | rest => (digitsVal? rest).map (fun n => (n : Int))

/-! ### `plugins/module_utils/variable.py` -/

/-- A row of `sc_item_option_mtom`, with the field read by
`VariableClient.list`. -/
structure MtomRow where
  sc_item_option : String
deriving DecidableEq

/-- A row of `sc_item_option`, with the fields read by
`VariableClient.list`. -/
structure ScItemOptionRow where
  item_option_new : String
  order : String
  value : String
deriving DecidableEq

/-- A row of `item_option_new`, with the fields read by
`VariableClient.list`. -/
structure ItemOptionNewRow where
  active : String
  name : String
  type : String
  mandatory : String
  read_only : String
  question_text : String
  description : String
deriving DecidableEq

/-- The `var_type` code/label table from variable.py (verbatim; note that
code `"13"` is absent). -/
def var_type : List (String × String) :=
  [("", ""),
   ("1", "Yes/No"),
   ("2", "Multi_Line_Text"),
   ("3", "Multiple_Choice"),
   ("4", "Numeric_cale"),
   ("5", "Select_Box"),
   ("6", "Single_Line_Text"),
   ("7", "CheckBox"),
   ("8", "Reference"),
   ("9", "Date"),
   ("10", "Date/Time"),
   ("11", "Label"),
   ("12", "Break"),
   ("14", "Custom"),
   ("15", "UI_Page"),
   ("16", "Wide Single Line Text"),
   ("17", "Custom_with_Label"),
   ("18", "Lookup_Select_Box"),
   ("19", "Container Start"),
   ("20", "Container End"),
   ("21", "List_Collector"),
   ("22", "Lookup_Multiple_Choice"),
   ("23", "HTML"),
   ("24", "Container Split"),
   ("25", "Masked"),
   ("26", "Email"),
   ("27", "URL"),
   ("28", "IP_Address"),
   ("29", "Duration"),
   ("30", "Time"),
   ("31", "Requested_For"),
   ("32", "Rich_Text_Label"),
   ("33", "Attachment")]

/-- `map_type` from variable.py: if the code occurs in `var_type`, return the
label at its first occurrence (the `for` loop); otherwise return
`"unknown"`. `none` is Python's implicit `None`, reachable only if the
membership test succeeded but the loop found no match (impossible). -/
def map_type (t : String) : Option String :=
  if t ∈ var_type.map (fun i => i.1) then
    (var_type.find? (fun i => i.1 == t)).map (fun i => i.2)
  else some "unknown"

/-- One element of `vars_full`: the dict `dict(name=name, value=value)` built
in the loop of `VariableClient.list`. -/
structure FullVar where
  name : ItemOptionNewRow
  value : ScItemOptionRow
deriving DecidableEq

/-- One element of `vars`: the summary dict built in the loop of
`VariableClient.list`. -/
structure SimpleVar where
  order : String
  active : String
  name : String
  type : Option String
  mandatory : String
  read_only : String
  question_text : String
  description : String
  value : String
deriving DecidableEq

/-- The table data `VariableClient.list` reads: `list_records` on
`sc_item_option_mtom` filtered by `request_item`, and `get_record` by
`sys_id` on `sc_item_option` and `item_option_new` (the table client is an
external collaborator; its lookups are abstracted as functions). -/
structure VariableEnv where
  mtomRecords : String → List MtomRow
  scItemOption : String → ScItemOptionRow
  itemOptionNew : String → ItemOptionNewRow

/-- `by_order_full` from variable.py: `int(ele['value']['order'])`. On a
string `int()` cannot parse, Python raises `ValueError`; the `getD 0`
default is never reached under the parse precondition the claims carry. -/
def by_order_full (ele : FullVar) : Int := (pyInt? ele.value.order).getD 0

/-- `by_order_simple` from variable.py: `int(ele['order'])`. -/
def by_order_simple (ele : SimpleVar) : Int := (pyInt? ele.order).getD 0

/-- Sort relation used for `vars_full.sort(key=by_order_full)`. -/
def leFull (a b : FullVar) : Prop := by_order_full a ≤ by_order_full b

/-- Sort relation used for `vars.sort(key=by_order_simple)`. -/
def leSimple (a b : SimpleVar) : Prop := by_order_simple a ≤ by_order_simple b

instance : DecidableRel leFull :=
  fun a b => (inferInstance : Decidable (by_order_full a ≤ by_order_full b))

instance : DecidableRel leSimple :=
  fun a b => (inferInstance : Decidable (by_order_simple a ≤ by_order_simple b))

instance : IsTotal FullVar leFull :=
  ⟨fun a b => Int.le_total (by_order_full a) (by_order_full b)⟩

instance : IsTrans FullVar leFull :=
  ⟨fun _ _ _ hab hbc => Int.le_trans hab hbc⟩

instance : IsTotal SimpleVar leSimple :=
  ⟨fun a b => Int.le_total (by_order_simple a) (by_order_simple b)⟩

instance : IsTrans SimpleVar leSimple :=
  ⟨fun _ _ _ hab hbc => Int.le_trans hab hbc⟩

/-- The joined rows the loop of `VariableClient.list` iterates over: one
`(name, value)` pair per `sc_item_option_mtom` row, in iteration order. -/
def joinedPairs (env : VariableEnv) (sys_id : String) : List FullVar :=
  (env.mtomRecords sys_id).map (fun v =>
    let value := env.scItemOption v.sc_item_option
    let name := env.itemOptionNew value.item_option_new
    { name := name, value := value })

/-- The `vars` entry the loop of `VariableClient.list` builds from a joined
`(name, value)` pair. -/
def simpleOfFull (f : FullVar) : SimpleVar :=
  { order := f.value.order
    active := f.name.active
    name := f.name.name
    type := map_type f.name.type
    mandatory := f.name.mandatory
    read_only := f.name.read_only
    question_text := f.name.question_text
    description := f.name.description
    value := f.value.value }

/-- The dict `dict(variables=vars_full, vars=vars)` returned by
`VariableClient.list`. -/
structure VarListResult where
  «variables» : List FullVar
  vars : List SimpleVar
deriving DecidableEq

/-- `VariableClient.list` from variable.py: the loop appends one entry per
`sc_item_option_mtom` row to both `vars` and `vars_full` (here: two maps
over the joined rows), then sorts each with Python's stable `list.sort`
(modelled by the stable `List.insertionSort`). -/
def VariableClient.list (env : VariableEnv) (sys_id : String) : VarListResult :=
  let vars_full := joinedPairs env sys_id
  let vars := vars_full.map simpleOfFull
  { «variables» := List.insertionSort leFull vars_full
    vars := List.insertionSort leSimple vars }

/-! ### `plugins/module_utils/request_item.py` -/

/-- `PAYLOAD_FIELDS_MAPPING` from module_utils/request_item.py, verbatim. -/
def PAYLOAD_FIELDS_MAPPING : Dict (List (String × String)) :=
  [("priority", [("1", "critical"), ("2", "high"), ("3", "moderate"), ("4", "low")]),
   ("impact", [("1", "high"), ("2", "medium"), ("3", "low")]),
   ("urgency", [("1", "high"), ("2", "medium"), ("3", "low")]),
   ("state",
     [("-5", "Pending"),
      ("1", "Open"),
      ("2", "Work In Progress"),
      ("3", "Closed Complete"),
      ("4", "Closed Incomplete"),
      ("7", "Closed Skipped")])]

/-! ### `remap_params` (identical in request_info.py, request_item_info.py and
request_task_info.py) -/

/-- The foreign-key lookups `table.find_user`, `table.find_assignment_group`
and `table.find_standard_change_template` used by `remap_params` live in
module_utils outside these sources; each is abstracted as the function
giving the `sys_id` of the record it looks up. -/
structure LookupEnv where
  userSysId : String → String
  groupSysId : String → String
  templateSysId : String → String

/-- The body of the `for k, v in item.items()` loop of `remap_params`: the
key/value pair written into `q` for one input entry. -/
def remapEntry (env : LookupEnv) (kv : String × (String × String)) :
    String × (String × String) :=
  let k := kv.1
  let v := kv.2
  if k = "type" then ("chg_model", (v.1, v.2))
  else if k = "hold_reason" then ("on_hold_reason", (v.1, v.2))
  else if k = "requested_by" then ("requested_by", (v.1, env.userSysId v.2))
  else if k = "assignment_group" then
    ("assignment_group", (v.1, env.groupSysId v.2))
  else if k = "template" then
    ("std_change_producer_version", (v.1, env.templateSysId v.2))
  else (k, v)

/-- One item of `remap_params`: the loop assigns `q[new_key] = new_value`
into an initially empty dict, in the item's iteration order. -/
def remapItem (env : LookupEnv) (item : Dict (String × String)) :
    Dict (String × String) :=
  item.foldl (fun q kv =>
    let e := remapEntry env kv
    dictSet q e.1 e.2) []

/-- `remap_params`: one remapped dict per query item, in order. -/
def remap_params (env : LookupEnv) :
    List (Dict (String × String)) → List (Dict (String × String))
  | [] => []
  | item :: rest => remapItem env item :: remap_params env rest

/-! ### `plugins/modules/request_item.py` -/

/-- A field value of an Ansible-side result record: table records hold
strings; the module adds list-valued keys (attachments, variables, vars). -/
inductive Val where
  | s (v : String)
  | atts (l : List (Dict String))
  | fulls (l : List FullVar)
  | simps (l : List SimpleVar)
deriving DecidableEq

/-- A plain string record viewed as a `Val`-valued record. -/
def liftS (d : Dict String) : Dict Val := d.map (fun p => (p.1, Val.s p.2))

theorem dictGet?_liftS (d : Dict String) (k : String) :
    dictGet? (liftS d) k = (dictGet? d k).map Val.s := by
  induction d with
  | nil => simp [liftS, dictGet?]
  | cons p d ih =>
      obtain ⟨pk, pv⟩ := p
      by_cases h : pk = k
      · simp [liftS, dictGet?, h]
      · simpa [liftS, dictGet?, h] using ih

/-- Exceptions: `PyErr.snow` is `errors.ServiceNowError`, the only class the
modules catch; `PyErr.typeErr` stands for any other exception, such as
`TypeError`. -/
inductive PyErr where
  | snow (msg : String)
  | typeErr (msg : String)
deriving DecidableEq

/-- Table and attachment writes, logged by the embedding at the calls the
source makes; reads are not logged. -/
inductive Effect where
  | createRecord (tbl : String)
  | updateRecord (tbl : String)
  | deleteRecord (tbl : String)
  | uploadAttachments (tbl : String)
  | updateAttachments (tbl : String)
  | deleteAttachedRecords (tbl : String)
deriving DecidableEq

/-- Module termination: `module.exit_json(changed=..., ...)`,
`module.fail_json(msg=...)`, or an uncaught exception. -/
inductive Outcome (α : Type) where
  | exited (changed : Bool) (data : α)
  | failed (msg : String)
  | crashed (e : PyErr)
deriving DecidableEq

/-- The `changed` flag reported by `exit_json`; `false` when the module did
not exit successfully. -/
def Outcome.changedFlag {α : Type} : Outcome α → Bool
  | .exited ch _ => ch
  | _ => false

/-- The request_item module parameters (its `argument_spec`). -/
structure ItemParams where
  sys_id : Option String
  number : Option String
  state : Option String
  assignment_group : Option String
  priority : Option String
  impact : Option String
  urgency : Option String
  short_description : Option String
  description : Option String
  close_notes : Option String
  other : Option (Dict String)
  attachments : Option (List (Dict String))

/-- External collaborators of the request_item module (table, attachment and
variable clients, the field mapper, and the module_utils helpers
`transform_metadata_list`, `are_changed`, `is_superset`,
`find_assignment_group`), all imported from outside these sources and
abstracted as functions. `check_mode` handling is inside the opaque
clients. -/
structure ItemEnv where
  getRecord : Dict String → Option (Dict String)
  createRecord : Dict String → Dict String
  updateRecord : Dict String → Dict String → Dict String
  listAttachments : String → List (Dict String)
  uploadRecords : String → List (Dict String) → List (Dict String)
  updateAttachmentRecords :
    String → List (Dict String) → List (Dict String) → List (Dict String)
  transformMeta : Option (List (Dict String)) → List (Dict String)
  areChanged : List (Dict String) → List (Dict String) → List Bool
  isSuperset : Dict Val → Dict String → Bool
  toAnsible : Dict String → Dict String
  toSnow : Dict String → Dict String
  toSnowV : Dict Val → Dict String
  findAssignmentGroup : String → String
  varEnv : VariableEnv

/-- `utils.filter_dict(module.params, "sys_id", "number")`. `filter_dict`
lives in module_utils outside these sources; it keeps the named parameters
that are set (not `None`). -/
def sysIdNumberQuery (p : ItemParams) : Dict String :=
  (match p.sys_id with
   | some v => [("sys_id", v)]
   | none => []) ++
  (match p.number with
   | some v => [("number", v)]
   | none => [])

/-- The module diff `dict(before=..., after=...)`. -/
structure DiffRes where
  before : Option (Dict Val)
  after : Option (Dict Val)
deriving DecidableEq

/-- The `(changed, record, diff)` triple returned by `run`. -/
abbrev RunOk := Bool × Option (Dict Val) × DiffRes

/-- `DIRECT_PAYLOAD_FIELDS` from request_item.py (note `urgency` is absent). -/
def DIRECT_PAYLOAD_FIELDS : List String :=
  ["state", "assignment_group", "priority", "impact", "short_description",
   "description", "close_notes"]

/-- The module parameter with a given direct payload field name. -/
def directParam (p : ItemParams) : String → Option String
  | "state" => p.state
  | "assignment_group" => p.assignment_group
  | "priority" => p.priority
  | "impact" => p.impact
  | "urgency" => p.urgency
  | "short_description" => p.short_description
  | "description" => p.description
  | "close_notes" => p.close_notes
  | _ => none

/-- `build_payload` from request_item.py: copy `other`, update it with the
set direct payload fields (`utils.filter_dict`, module_utils, modelled as
keeping the set ones), then substitute the assignment group sys_id when the
parameter is given. -/
def build_payload (env : ItemEnv) (p : ItemParams) : Dict String :=
  let base := p.other.getD []
  let base := DIRECT_PAYLOAD_FIELDS.foldl
    (fun d k =>
      match directParam p k with
      | some v => dictSet d k v
      | none => d) base
  match p.assignment_group with
  | some g => dictSet base "assignment_group" (env.findAssignmentGroup g)
  | none => base

/-- Modelled from the spec: `validation.missing_from_params_and_remote`
(module_utils, not under these sources). The spec only promises
"checking a few required fields"; following the claim wording, the field is
missing when it is set neither in the parameters nor on the remote record. -/
def missingCloseNotes (p : ItemParams) (remote : Option (Dict Val)) :
    List String :=
  if p.close_notes = none ∧
      (remote.bind (fun r => dictGet? r "close_notes")) = none then
    ["close_notes"]
  else []

/-- `validate_params` from request_item.py: for state `closed`, collect the
missing required fields and raise `ServiceNowError` when any. -/
def validate_params (p : ItemParams) (change_request : Option (Dict Val)) :
    Except PyErr Unit :=
  let missing := if p.state = some "closed" then missingCloseNotes p change_request else []
  if missing = [] then .ok ()
  else .error (.snow ("Missing required parameters " ++ String.intercalate ", " missing))

/-- `ensure_absent` from request_item.py, as defined (its four parameters;
`variable_client` is unused by its body). -/
def ensure_absent (env : ItemEnv) (p : ItemParams) :
    Except PyErr RunOk × List Effect :=
  let query := sysIdNumberQuery p
  match env.getRecord query with
  | some change =>
      (.ok (true, none, ⟨some (liftS (env.toAnsible change)), none⟩),
        [.deleteAttachedRecords "sc_req_item", .deleteRecord "sc_req_item"])
  | none => (.ok (false, none, ⟨none, none⟩), [])

/-- The existing record as `ensure_present` sees it after merging in its
attachments and variables (`old["attachments"] = ...`,
`old["variables"] = ...`, `old["vars"] = ...`). -/
def mergedOld (env : ItemEnv) (rec0 : Dict String) : Dict Val :=
  let old0 := env.toAnsible rec0
  let sysId := (dictGet? old0 "sys_id").getD ""
  let atts := env.listAttachments sysId
  let vres := VariableClient.list env.varEnv sysId
  dictSet
    (dictSet (dictSet (liftS old0) "attachments" (.atts atts))
      "variables" (.fulls vres.variables))
    "vars" (.simps vres.vars)

/-- `ensure_present` from request_item.py. `get_record(..., must_exist=True)`
raises `ServiceNowError` when no record matches. -/
def ensure_present (env : ItemEnv) (p : ItemParams) :
    Except PyErr RunOk × List Effect :=
  let query := sysIdNumberQuery p
  let payload := build_payload env p
  let attachments := env.transformMeta p.attachments
  if query = [] then
    match validate_params p none with
    | .error e => (.error e, [])
    | .ok _ =>
        let new0 := env.toAnsible (env.createRecord (env.toSnow payload))
        let uploaded :=
          env.uploadRecords ((dictGet? new0 "sys_id").getD "N/A") attachments
        let new := dictSet (liftS new0) "attachments" (.atts uploaded)
        (.ok (true, some new, ⟨none, some new⟩),
          [.createRecord "sc_req_item", .uploadAttachments "sc_req_item"])
  else
    match env.getRecord query with
    | none => (.error (.snow "Record does not exist"), [])
    | some rec0 =>
        let sysId := (dictGet? (env.toAnsible rec0) "sys_id").getD ""
        let atts := env.listAttachments sysId
        let old := mergedOld env rec0
        if env.isSuperset old payload &&
            !((env.areChanged atts attachments).any (fun b => b)) then
          (.ok (false, some old, ⟨some old, some old⟩), [])
        else
          match validate_params p (some old) with
          | .error e => (.error e, [])
          | .ok _ =>
              let vres := VariableClient.list env.varEnv sysId
              let new0 :=
                env.toAnsible (env.updateRecord (env.toSnowV old) (env.toSnow payload))
              let updAtts := env.updateAttachmentRecords sysId attachments atts
              let new := dictSet
                (dictSet (dictSet (liftS new0) "attachments" (.atts updAtts))
                  "variables" (.fulls vres.variables))
                "vars" (.simps vres.vars)
              (.ok (true, some new, ⟨some old, some new⟩),
                [.updateRecord "sc_req_item", .updateAttachments "sc_req_item"])

/-- `run` from request_item.py. For state `absent` the source calls
`ensure_absent(module, table_client, attachment_client)`: three arguments
for a function of four required parameters, so Python raises `TypeError`
before the body of `ensure_absent` executes; the embedding returns that
exception. -/
def RequestItem.run (env : ItemEnv) (p : ItemParams) :
    Except PyErr RunOk × List Effect :=
  if p.state = some "absent" then
    (.error (.typeErr
      "ensure_absent missing 1 required positional argument: variable_client"), [])
  else ensure_present env p

/-- `main` from request_item.py: on success `exit_json(changed=changed,
record=record, diff=diff)`; `except errors.ServiceNowError as e:
module.fail_json(msg=str(e))`; any other exception propagates uncaught. -/
def RequestItem.main (env : ItemEnv) (p : ItemParams) :
    Outcome (Option (Dict Val) × DiffRes) × List Effect :=
  match RequestItem.run env p with
  | (.ok (changed, record, diff), eff) => (.exited changed (record, diff), eff)
  | (.error (.snow m), eff) => (.failed m, eff)
  | (.error e, eff) => (.crashed e, eff)

/-! ### The info modules (request_info.py, request_item_info.py,
request_task_info.py) -/

/-- Parameters shared by the three info modules. -/
structure InfoParams where
  sys_id : Option String
  number : Option String
  query : Option (List (Dict String))

/-- External collaborators of the info modules: the table, attachment and
variable clients, the field mapper, the query helpers `parse_query`,
`map_query_values` and `serialize_query` (module_utils, outside these
sources), and the foreign-key lookups used by `remap_params`. -/
structure InfoEnv where
  listRecords : String → Dict String → List (Dict String)
  listAttachments : String → String → List (Dict String)
  varEnv : VariableEnv
  toAnsible : Dict String → Dict String
  lookups : LookupEnv
  parseQuery : List (Dict String) → List (Dict (String × String)) × Option String
  mapQueryValues : List (Dict (String × String)) → List (Dict (String × String))
  serializeQuery : List (Dict (String × String)) → String

/-- Python truthiness of `module.params["query"]`: `None` and the empty list
are falsy. -/
def queryTruthy : Option (List (Dict String)) → Bool
  | none => false
  | some l => !l.isEmpty

/-- `utils.filter_dict(module.params, "sys_id", "number")` for the info
modules (module_utils, outside these sources: keeps the set parameters). -/
def sysIdNumberQueryInfo (p : InfoParams) : Dict String :=
  (match p.sys_id with
   | some v => [("sys_id", v)]
   | none => []) ++
  (match p.number with
   | some v => [("number", v)]
   | none => [])

/-- `sysparms_query` (identical in the three info modules): parse the query
parameter, raise `ServiceNowError` on a parse error, then serialize the
value-mapped remapped query. -/
def sysparms_query (env : InfoEnv) (p : InfoParams) : Except PyErr String :=
  let parsed := env.parseQuery (p.query.getD [])
  match parsed.2 with
  | some err => .error (.snow err)
  | none =>
      .ok (env.serializeQuery (env.mapQueryValues (remap_params env.lookups parsed.1)))

/-- The table query each info module's `run` builds: a `sysparm_query` dict
when the query parameter is truthy, else the sys_id/number filter. -/
def infoQuery (env : InfoEnv) (p : InfoParams) : Except PyErr (Dict String) :=
  if queryTruthy p.query then
    match sysparms_query env p with
    | .error e => .error e
    | .ok qs => .ok [("sysparm_query", qs)]
  else .ok (sysIdNumberQueryInfo p)

/-- The per-record result entry of request_item_info.run (and of
request_task_info.run): `dict(mapper.to_ansible(record),
attachments=attachments, variables=variables['variables'],
vars=variables['vars'])`. -/
def infoEntry (t : Dict String) (atts : List (Dict String)) (v : VarListResult) :
    Dict Val :=
  dictSet
    (dictSet (dictSet (liftS t) "attachments" (.atts atts))
      "variables" (.fulls v.variables))
    "vars" (.simps v.vars)

/-- The per-record result entry of request_info.run:
`dict(mapper.to_ansible(record), attachments=...)`. -/
def requestEntry (t : Dict String) (atts : List (Dict String)) : Dict Val :=
  dictSet (liftS t) "attachments" (.atts atts)

/-- `run` from request_info.py: list `sc_request` records and return one
entry per record, in order. -/
def RequestInfo.run (env : InfoEnv) (p : InfoParams) :
    Except PyErr (List (Dict Val)) × List Effect :=
  match infoQuery env p with
  | .error e => (.error e, [])
  | .ok query =>
      (.ok ((env.listRecords "sc_request" query).map (fun record =>
        requestEntry (env.toAnsible record)
          (env.listAttachments "sc_request" ((dictGet? record "sys_id").getD "")))), [])

/-- `run` from request_item_info.py: list `sc_req_item` records; for each,
fetch its attachments and variables and build the result entry, in order. -/
def RequestItemInfo.run (env : InfoEnv) (p : InfoParams) :
    Except PyErr (List (Dict Val)) × List Effect :=
  match infoQuery env p with
  | .error e => (.error e, [])
  | .ok query =>
      (.ok ((env.listRecords "sc_req_item" query).map (fun record =>
        infoEntry (env.toAnsible record)
          (env.listAttachments "sc_req_item" ((dictGet? record "sys_id").getD ""))
          (VariableClient.list env.varEnv ((dictGet? record "sys_id").getD "")))), [])

/-- `run` from request_task_info.py: as request_item_info.run but on the
`sc_task` table. -/
def RequestTaskInfo.run (env : InfoEnv) (p : InfoParams) :
    Except PyErr (List (Dict Val)) × List Effect :=
  match infoQuery env p with
  | .error e => (.error e, [])
  | .ok query =>
      (.ok ((env.listRecords "sc_task" query).map (fun record =>
        infoEntry (env.toAnsible record)
          (env.listAttachments "sc_task" ((dictGet? record "sys_id").getD ""))
          (VariableClient.list env.varEnv ((dictGet? record "sys_id").getD "")))), [])

/-- `main` from request_info.py: on success
`exit_json(changed=False, records=records)`; only `ServiceNowError` is
caught and reported via `fail_json(msg=str(e))`. -/
def RequestInfo.main (env : InfoEnv) (p : InfoParams) :
    Outcome (List (Dict Val)) × List Effect :=
  match RequestInfo.run env p with
  | (.ok records, eff) => (.exited false records, eff)
  | (.error (.snow m), eff) => (.failed m, eff)
  | (.error e, eff) => (.crashed e, eff)

/-- `main` from request_item_info.py (same exit discipline). -/
def RequestItemInfo.main (env : InfoEnv) (p : InfoParams) :
    Outcome (List (Dict Val)) × List Effect :=
  match RequestItemInfo.run env p with
  | (.ok records, eff) => (.exited false records, eff)
  | (.error (.snow m), eff) => (.failed m, eff)
  | (.error e, eff) => (.crashed e, eff)

/-- `main` from request_task_info.py (same exit discipline). -/
def RequestTaskInfo.main (env : InfoEnv) (p : InfoParams) :
    Outcome (List (Dict Val)) × List Effect :=
  match RequestTaskInfo.run env p with
  | (.ok records, eff) => (.exited false records, eff)
  | (.error (.snow m), eff) => (.failed m, eff)
  | (.error e, eff) => (.crashed e, eff)

/-! ### Claim theorems -/

/-- C3: `map_type` returns the label paired with a string occurring as a code
in `var_type` (in particular `""` maps to `""` and `"6"` to
`"Single_Line_Text"`), and returns `"unknown"` for every string not
occurring as a code (in particular `"13"`, absent from the table). -/
theorem map_type_ok :
    (∀ code label, (code, label) ∈ var_type → map_type code = some label) ∧
    (∀ s, s ∉ var_type.map (fun i => i.1) → map_type s = some "unknown") ∧
    map_type "" = some "" ∧
    map_type "6" = some "Single_Line_Text" ∧
    map_type "13" = some "unknown" := by
  refine ⟨?_, ?_, by decide, by decide, by decide⟩
  · intro code label h
    fin_cases h <;> decide
  · intro s h
    unfold map_type
    rw [if_neg h]

/-- Witness for `map_type_ok` at the concrete codes `"6"` and `"13"`. -/
theorem map_type_ok_witness :
    (("6", "Single_Line_Text") ∈ var_type ∧
      map_type "6" = some "Single_Line_Text") ∧
    ("13" ∉ var_type.map (fun i => i.1) ∧ map_type "13" = some "unknown") :=
  ⟨⟨by decide, map_type_ok.1 "6" "Single_Line_Text" (by decide)⟩,
   ⟨by decide, map_type_ok.2.1 "13" (by decide)⟩⟩

/-- C6: the state enumeration of `PAYLOAD_FIELDS_MAPPING` pairs exactly the
codes -5, 1, 2, 3, 4, 7 with the labels Pending, Open, Work In Progress,
Closed Complete, Closed Incomplete, Closed Skipped, and in each of the four
per-field enumerations neither a code nor a label repeats, so each
translation is invertible. -/
theorem payload_fields_mapping_ok :
    dictGet? PAYLOAD_FIELDS_MAPPING "state" =
      some [("-5", "Pending"), ("1", "Open"), ("2", "Work In Progress"),
        ("3", "Closed Complete"), ("4", "Closed Incomplete"),
        ("7", "Closed Skipped")] ∧
    ∀ entry ∈ PAYLOAD_FIELDS_MAPPING,
      (entry.2.map Prod.fst).Nodup ∧ (entry.2.map Prod.snd).Nodup := by
  constructor
  · decide
  · decide

/-- Witness for `payload_fields_mapping_ok` at the `priority` field. -/
theorem payload_fields_mapping_ok_witness :
    (("priority", [("1", "critical"), ("2", "high"), ("3", "moderate"), ("4", "low")])
        ∈ PAYLOAD_FIELDS_MAPPING) ∧
    (([("1", "critical"), ("2", "high"), ("3", "moderate"), ("4", "low")].map
        (Prod.fst (α := String) (β := String))).Nodup ∧
     ([("1", "critical"), ("2", "high"), ("3", "moderate"), ("4", "low")].map
        (Prod.snd (α := String) (β := String))).Nodup) :=
  ⟨by decide,
   payload_fields_mapping_ok.2
     ("priority", [("1", "critical"), ("2", "high"), ("3", "moderate"), ("4", "low")])
     (by decide)⟩

/-- C2: for every sys_id and all contents of the three joined tables whose
`sc_item_option` `order` fields parse as integers, both lists returned by
`VariableClient.list` are sorted in non-decreasing order of the integer
value of `order` (`leFull`/`leSimple` compare exactly those integers). -/
theorem variable_list_sorted (env : VariableEnv) (sys_id : String)
    (_hp : ∀ f ∈ joinedPairs env sys_id, (pyInt? f.value.order).isSome) :
    List.Pairwise leFull (VariableClient.list env sys_id).variables ∧
    List.Pairwise leSimple (VariableClient.list env sys_id).vars := by
  constructor
  · exact List.sorted_insertionSort leFull (joinedPairs env sys_id)
  · exact List.sorted_insertionSort leSimple
      ((joinedPairs env sys_id).map simpleOfFull)

/-- Concrete variable-table contents exercising `VariableClient.list`. -/
def varEnvW : VariableEnv :=
  { mtomRecords := fun _ => [⟨"opt1"⟩, ⟨"opt2"⟩]
    scItemOption := fun s =>
      if s = "opt1" then ⟨"ion1", "20", "oracle"⟩ else ⟨"ion2", "3", "linux"⟩
    itemOptionNew := fun s =>
      if s = "ion1" then ⟨"true", "software", "6", "false", "false", "q1", "d1"⟩
      else ⟨"true", "os", "5", "false", "false", "q2", "d2"⟩ }

/-- Witness for `variable_list_sorted` on `varEnvW`. -/
theorem variable_list_sorted_witness :
    (∀ f ∈ joinedPairs varEnvW "RITM1", (pyInt? f.value.order).isSome) ∧
    (List.Pairwise leFull (VariableClient.list varEnvW "RITM1").variables ∧
     List.Pairwise leSimple (VariableClient.list varEnvW "RITM1").vars) :=
  ⟨by decide, variable_list_sorted varEnvW "RITM1" (by decide)⟩

/-- C10: the two lists returned by `VariableClient.list` have the same
length and correspond index-by-index: `vars` is the image of `variables`
under the summary-entry construction `simpleOfFull`, because both lists are
built in the same iteration order and sorted stably by the same integer
key. -/
theorem variable_list_aligned (env : VariableEnv) (sys_id : String) :
    (VariableClient.list env sys_id).vars.length =
      (VariableClient.list env sys_id).variables.length ∧
    (VariableClient.list env sys_id).vars =
      (VariableClient.list env sys_id).variables.map simpleOfFull := by
  have h2 : (VariableClient.list env sys_id).vars =
      ((joinedPairs env sys_id).map simpleOfFull).insertionSort leSimple := rfl
  have h3 : (VariableClient.list env sys_id).variables =
      (joinedPairs env sys_id).insertionSort leFull := rfl
  have hmap :
      ((joinedPairs env sys_id).insertionSort leFull).map simpleOfFull =
        ((joinedPairs env sys_id).map simpleOfFull).insertionSort leSimple :=
    List.map_insertionSort leFull leSimple simpleOfFull (joinedPairs env sys_id)
      (fun _ _ _ _ => Iff.rfl)
  constructor
  · rw [h2, h3, ← hmap, List.length_map]
  · rw [h2, h3, ← hmap]

/-- Trivial lookups for the `remap_params` counterexample (their values do
not matter on the chosen input). -/
def lookupTriv : LookupEnv :=
  { userSysId := fun s => s
    groupSysId := fun s => s
    templateSysId := fun s => s }

/-- C1 counterexample: on an item containing both `type` and `chg_model`,
the rename collides with the passed-through key, Python dict assignment
merges the two entries, and the renamed `type` pair (operator and value
unchanged) is NOT in the result: the per-key description of the claim fails
on such a query. -/
theorem remap_params_collision_cx :
    remap_params lookupTriv [[("type", ("=", "a")), ("chg_model", ("=", "b"))]] =
      [[("chg_model", ("=", "b"))]] ∧
    ("chg_model", ("=", "a")) ∉
      remapItem lookupTriv [("type", ("=", "a")), ("chg_model", ("=", "b"))] := by
  decide

/-- C1 (amended): provided that within each item no two keys remap to the
same output field name, `remap_params` returns a list of the same length in
the same order in which each item is mapped entrywise: `type` is renamed to
`chg_model` and `hold_reason` to `on_hold_reason` (operator and value
unchanged), `requested_by` and `assignment_group` keep their key with the
looked-up sys_id as value (operator unchanged), `template` becomes
`std_change_producer_version` with the looked-up template sys_id, and every
other key passes through unchanged (`remapEntry` is exactly that
per-entry transformation). -/
theorem remap_params_ok (env : LookupEnv) (query : List (Dict (String × String)))
    (h : ∀ item ∈ query,
      (item.map (fun kv => (remapEntry env kv).1)).Nodup) :
    remap_params env query = query.map (fun item => item.map (remapEntry env)) := by
  induction query with
  | nil => rfl
  | cons item rest ih =>
      have hitem : remapItem env item = item.map (remapEntry env) := by
        have hfold :
            remapItem env item =
              (item.map (remapEntry env)).foldl
                (fun q kv => dictSet q kv.1 kv.2) [] := by
          unfold remapItem
          rw [List.foldl_map]
        have hkeys :
            (([] : Dict (String × String)).map Prod.fst ++
              ((item.map (remapEntry env)).map Prod.fst)).Nodup := by
          simpa [List.map_map, Function.comp] using h item (by simp)
        rw [hfold, foldl_dictSet_fresh _ _ hkeys]
        simp
      have hrest : remap_params env rest = rest.map (fun i => i.map (remapEntry env)) :=
        ih (fun i hi => h i (by simp [hi]))
      simp [remap_params, hitem, hrest]

/-- A query item exercising every branch of `remapEntry`. -/
def remapItemW : Dict (String × String) :=
  [("type", ("=", "standard")),
   ("hold_reason", ("=", "waiting")),
   ("requested_by", ("=", "abel.tuter")),
   ("assignment_group", ("=", "network")),
   ("template", ("=", "clone")),
   ("short_description", ("LIKE", "SAP"))]

/-- Concrete lookups for the `remap_params_ok` witness. -/
def lookupW : LookupEnv :=
  { userSysId := fun u => "USER-" ++ u
    groupSysId := fun g => "GROUP-" ++ g
    templateSysId := fun t => "TMPL-" ++ t }

/-- Witness for `remap_params_ok` on a one-item query hitting every branch. -/
theorem remap_params_ok_witness :
    (∀ item ∈ [remapItemW],
      (item.map (fun kv => (remapEntry lookupW kv).1)).Nodup) ∧
    remap_params lookupW [remapItemW] =
      [[("chg_model", ("=", "standard")),
        ("on_hold_reason", ("=", "waiting")),
        ("requested_by", ("=", "USER-abel.tuter")),
        ("assignment_group", ("=", "GROUP-network")),
        ("std_change_producer_version", ("=", "TMPL-clone")),
        ("short_description", ("LIKE", "SAP"))]] :=
  ⟨by decide,
   (remap_params_ok lookupW [remapItemW] (by decide)).trans (by decide)⟩

/-- C9: on every invocation, successful or not, the three info modules log
no table write (no create, update or delete effect), and the `changed`
flag of any successful exit is `False` (`changedFlag` is that flag, and
`false` when the module did not exit successfully). -/
theorem info_modules_read_only (env : InfoEnv) (p : InfoParams) :
    ((RequestInfo.main env p).1.changedFlag = false ∧
      (RequestInfo.main env p).2 = []) ∧
    ((RequestItemInfo.main env p).1.changedFlag = false ∧
      (RequestItemInfo.main env p).2 = []) ∧
    ((RequestTaskInfo.main env p).1.changedFlag = false ∧
      (RequestTaskInfo.main env p).2 = []) := by
  refine ⟨?_, ?_, ?_⟩
  · unfold RequestInfo.main RequestInfo.run
    cases hq : infoQuery env p with
    | error e => cases e <;> simp [Outcome.changedFlag]
    | ok q => simp [Outcome.changedFlag]
  · unfold RequestItemInfo.main RequestItemInfo.run
    cases hq : infoQuery env p with
    | error e => cases e <;> simp [Outcome.changedFlag]
    | ok q => simp [Outcome.changedFlag]
  · unfold RequestTaskInfo.main RequestTaskInfo.run
    cases hq : infoQuery env p with
    | error e => cases e <;> simp [Outcome.changedFlag]
    | ok q => simp [Outcome.changedFlag]

/-- C7: when the query computation succeeds, request_item_info.run returns
one entry per listed record, in order, namely `infoEntry` of the
mapper-translated record; and `infoEntry` keeps every key/value pair of the
translated record unchanged except that exactly the keys `attachments`,
`variables` and `vars` are added or overwritten with the fetched values. -/
theorem request_item_info_frame (env : InfoEnv) (p : InfoParams)
    (q : Dict String) (hq : infoQuery env p = .ok q) :
    (RequestItemInfo.run env p).1 =
      .ok ((env.listRecords "sc_req_item" q).map (fun record =>
        infoEntry (env.toAnsible record)
          (env.listAttachments "sc_req_item" ((dictGet? record "sys_id").getD ""))
          (VariableClient.list env.varEnv ((dictGet? record "sys_id").getD "")))) ∧
    (∀ (t : Dict String) (atts : List (Dict String)) (v : VarListResult)
        (k : String),
      (k ≠ "attachments" → k ≠ "variables" → k ≠ "vars" →
        dictGet? (infoEntry t atts v) k = (dictGet? t k).map Val.s) ∧
      dictGet? (infoEntry t atts v) "attachments" = some (.atts atts) ∧
      dictGet? (infoEntry t atts v) "variables" = some (.fulls v.variables) ∧
      dictGet? (infoEntry t atts v) "vars" = some (.simps v.vars) ∧
      ((dictGet? (infoEntry t atts v) k).isSome ↔
        ((dictGet? t k).isSome ∨ k = "attachments" ∨ k = "variables" ∨
          k = "vars"))) := by
  constructor
  · unfold RequestItemInfo.run
    simp [hq]
  · intro t atts v k
    refine ⟨?_, ?_, ?_, ?_, ?_⟩
    · intro h1 h2 h3
      unfold infoEntry
      rw [dictGet?_dictSet_ne _ _ _ _ h3, dictGet?_dictSet_ne _ _ _ _ h2,
        dictGet?_dictSet_ne _ _ _ _ h1, dictGet?_liftS]
    · unfold infoEntry
      rw [dictGet?_dictSet_ne _ _ _ _ (by decide),
        dictGet?_dictSet_ne _ _ _ _ (by decide), dictGet?_dictSet_self]
    · unfold infoEntry
      rw [dictGet?_dictSet_ne _ _ _ _ (by decide), dictGet?_dictSet_self]
    · unfold infoEntry
      rw [dictGet?_dictSet_self]
    · unfold infoEntry
      by_cases h3 : k = "vars"
      · subst h3
        simp [dictGet?_dictSet_self]
      · by_cases h2 : k = "variables"
        · subst h2
          rw [dictGet?_dictSet_ne _ _ _ _ (by decide), dictGet?_dictSet_self]
          simp
        · by_cases h1 : k = "attachments"
          · subst h1
            rw [dictGet?_dictSet_ne _ _ _ _ (by decide),
              dictGet?_dictSet_ne _ _ _ _ (by decide), dictGet?_dictSet_self]
            simp
          · rw [dictGet?_dictSet_ne _ _ _ _ h3, dictGet?_dictSet_ne _ _ _ _ h2,
              dictGet?_dictSet_ne _ _ _ _ h1, dictGet?_liftS]
            cases dictGet? t k <;> simp [h1, h2, h3]

/-- A concrete environment for the info-module witnesses: one `sc_req_item`
record, no attachments, no variables. -/
def infoEnvW : InfoEnv :=
  { listRecords := fun _ _ => [[("sys_id", "SID1"), ("state", "1")]]
    listAttachments := fun _ _ => []
    varEnv :=
      ⟨fun _ => [], fun _ => ⟨"", "0", ""⟩, fun _ => ⟨"", "", "", "", "", "", ""⟩⟩
    toAnsible := fun r => r
    lookups := ⟨fun s => s, fun s => s, fun s => s⟩
    parseQuery := fun _ => ([], none)
    mapQueryValues := fun l => l
    serializeQuery := fun _ => "" }

/-- Info-module parameters selecting a record by number. -/
def infoParamsW : InfoParams :=
  { sys_id := none, number := some "RITM0010001", query := none }

/-- Witness for `request_item_info_frame` on `infoEnvW`: the translated
record's `state` pair is passed through unchanged. -/
theorem request_item_info_frame_witness :
    infoQuery infoEnvW infoParamsW = .ok [("number", "RITM0010001")] ∧
    dictGet? (infoEntry [("sys_id", "SID1"), ("state", "1")] [] ⟨[], []⟩)
      "state" = some (.s "1") :=
  ⟨rfl, by
    have h := ((request_item_info_frame infoEnvW infoParamsW
        [("number", "RITM0010001")] rfl).2
        [("sys_id", "SID1"), ("state", "1")] [] ⟨[], []⟩ "state").1
        (by decide) (by decide) (by decide)
    rw [h]
    decide⟩

/-- A concrete environment for the request_item module: a matching record
exists for every query, attachments compare as unchanged, and the merged
record counts as a superset of any payload. -/
def itemEnvW : ItemEnv :=
  { getRecord := fun _ => some [("sys_id", "SID1"), ("number", "RITM0010001")]
    createRecord := fun r => r
    updateRecord := fun _ pl => pl
    listAttachments := fun _ => []
    uploadRecords := fun _ l => l
    updateAttachmentRecords := fun _ l _ => l
    transformMeta := fun o => o.getD []
    areChanged := fun _ _ => []
    isSuperset := fun _ _ => true
    toAnsible := fun r => r
    toSnow := fun r => r
    toSnowV := fun _ => []
    findAssignmentGroup := fun g => g
    varEnv :=
      ⟨fun _ => [], fun _ => ⟨"", "0", ""⟩, fun _ => ⟨"", "", "", "", "", "", ""⟩⟩ }

/-- request_item parameters asking for deletion of an existing record. -/
def itemParamsAbsent : ItemParams :=
  { sys_id := none
    number := some "RITM0010001"
    state := some "absent"
    assignment_group := none
    priority := none
    impact := none
    urgency := none
    short_description := none
    description := none
    close_notes := none
    other := none
    attachments := none }

/-- C4: invoked with state `absent` while a matching record exists, `run`
deletes nothing: the source passes three arguments to the four-parameter
`ensure_absent`, so Python raises `TypeError` before any deletion, with an
empty effect trace — although `ensure_absent` itself, as defined, would
delete the attachments and the record and report changed=True with the old
record in the diff, as the claim states. -/
theorem request_item_absent_bug :
    RequestItem.run itemEnvW itemParamsAbsent =
      (.error (.typeErr
        "ensure_absent missing 1 required positional argument: variable_client"),
       []) ∧
    (itemEnvW.getRecord (sysIdNumberQuery itemParamsAbsent)).isSome = true ∧
    ensure_absent itemEnvW itemParamsAbsent =
      (.ok (true, none,
        ⟨some (liftS [("sys_id", "SID1"), ("number", "RITM0010001")]), none⟩),
       [.deleteAttachedRecords "sc_req_item", .deleteRecord "sc_req_item"]) :=
  ⟨rfl, rfl, rfl⟩

/-- C5 counterexample: the `TypeError` raised during execution at state
`absent` is not reported as a module failure (only `ServiceNowError` is
caught by `main`); the module crashes instead of calling `fail_json`. -/
theorem request_item_uncaught_error_cx :
    RequestItem.main itemEnvW itemParamsAbsent =
      (.crashed (.typeErr
        "ensure_absent missing 1 required positional argument: variable_client"),
       []) := rfl

/-- C5 (amended): `main` reports a single generic module failure with
message `m`, and nothing else, exactly when execution raised
`ServiceNowError(m)` (the string representation of which is `m`); an error
of any other class is not reported as a module failure but propagates
uncaught. -/
theorem request_item_failed_iff (env : ItemEnv) (p : ItemParams) (m : String) :
    (RequestItem.main env p).1 = .failed m ↔
      (RequestItem.run env p).1 = .error (.snow m) := by
  unfold RequestItem.main
  split <;> rename_i heq <;> simp_all

/-- C8: when the existing record (merged with its attachments and
variables) is a superset of the payload and no attachment is detected as
changed, `ensure_present` returns changed=False with before and after both
the merged record and performs no create, update or upload (empty effect
trace). -/
theorem ensure_present_noop (env : ItemEnv) (p : ItemParams)
    (rec0 : Dict String)
    (hq : sysIdNumberQuery p ≠ [])
    (hget : env.getRecord (sysIdNumberQuery p) = some rec0)
    (hsup : env.isSuperset (mergedOld env rec0) (build_payload env p) = true)
    (hatt : (env.areChanged
        (env.listAttachments ((dictGet? (env.toAnsible rec0) "sys_id").getD ""))
        (env.transformMeta p.attachments)).any (fun b => b) = false) :
    ensure_present env p =
      (.ok (false, some (mergedOld env rec0),
        ⟨some (mergedOld env rec0), some (mergedOld env rec0)⟩), []) := by
  unfold ensure_present
  rw [if_neg hq, hget]
  simp [hsup, hatt]

/-- request_item parameters selecting an existing record with no requested
changes. -/
def itemParamsPresent : ItemParams :=
  { sys_id := none
    number := some "RITM0010001"
    state := none
    assignment_group := none
    priority := none
    impact := none
    urgency := none
    short_description := none
    description := none
    close_notes := none
    other := none
    attachments := none }

/-- Witness for `ensure_present_noop` on `itemEnvW`. -/
theorem ensure_present_noop_witness :
    sysIdNumberQuery itemParamsPresent ≠ [] ∧
    ensure_present itemEnvW itemParamsPresent =
      (.ok (false,
        some (mergedOld itemEnvW [("sys_id", "SID1"), ("number", "RITM0010001")]),
        ⟨some (mergedOld itemEnvW [("sys_id", "SID1"), ("number", "RITM0010001")]),
         some (mergedOld itemEnvW
           [("sys_id", "SID1"), ("number", "RITM0010001")])⟩), []) :=
  ⟨by decide,
   ensure_present_noop itemEnvW itemParamsPresent
     [("sys_id", "SID1"), ("number", "RITM0010001")] (by decide) rfl rfl rfl⟩
